import Mathlib

/-!
Shallow embedding of the virtiofsd trusted core (src/oslib.rs,
src/passthrough/file_handle.rs, src/passthrough/credentials.rs, src/util.rs).

Kernel/OS interaction is modelled by explicit "world" records supplying the
outcome of each raw syscall; the Rust functions become pure Lean functions of
those worlds, returning their Rust result together with (where a claim needs
it) the trace of syscalls performed or the argument record passed to the
kernel.  Machine-integer casts (`i32 as u64`, `as i8`) are modelled on
Nat/Int with explicit modular arithmetic.
-/

/-- Linux constant `RESOLVE_IN_ROOT` (uapi/linux/openat2.h). -/
def RESOLVE_IN_ROOT : Nat := 0x10

/-- Linux constant `RESOLVE_NO_MAGICLINKS` (uapi/linux/openat2.h). -/
def RESOLVE_NO_MAGICLINKS : Nat := 0x02

/-- Linux x86-64 constant `O_NOFOLLOW`. -/
def O_NOFOLLOW : Nat := 0o400000

/-- Linux x86-64 constant `O_CLOEXEC`. -/
def O_CLOEXEC : Nat := 0o2000000

/-- Linux errno `EOPNOTSUPP`. -/
def EOPNOTSUPP : Nat := 95

/-- Linux errno `EOVERFLOW`. -/
def EOVERFLOW : Nat := 75

/-- Linux constant `AT_EMPTY_PATH` (fcntl.h). -/
def AT_EMPTY_PATH : Nat := 0x1000

/-- Linux constant `LOCK_EX`. -/
def LOCK_EX : Nat := 2

/-- Linux constant `LOCK_NB`. -/
def LOCK_NB : Nat := 4

/-- C constant `EXIT_FAILURE`. -/
def EXIT_FAILURE : Int := 1

/-- Rust cast `x as u64` for an `i32` value `x` (two's-complement
reinterpretation after sign extension): the value modulo `2^64`. -/
def u64_of_i32 (x : Int) : Nat := (x.emod (2 ^ 64)).toNat

/-- Rust cast `n as i8` for a non-negative integer `n`: truncate to the low
8 bits and reinterpret in two's complement. -/
def i8_cast (n : Nat) : Int :=
  if n % 256 < 128 then (n % 256 : Nat) else (n % 256 : Nat) - 256

/-! ## src/oslib.rs -/

/-- The `libc::open_how` argument record of `openat2(2)`, as filled in by
`do_open_relative_to` (`mem::zeroed` then the three fields assigned). -/
structure OpenHow where
  flags : Nat
  mode : Nat
  resolve : Nat
deriving DecidableEq

/-- World for `do_open_relative_to`: the kernel's reply to the `openat2`
syscall (already truncated to a `RawFd`, as the source does with `as RawFd`),
and the `errno` reported by `Error::last_os_error()` on failure. -/
structure OWorld where
  openat2 : Int → List Nat → OpenHow → Int
  errno : Nat

/-- Embedding of `oslib::do_open_relative_to` (src/oslib.rs:179-207).
Builds `how` with `resolve = RESOLVE_IN_ROOT | RESOLVE_NO_MAGICLINKS`,
`flags = flags as u64`, `mode = u64::from(mode.unwrap_or(0)) & 0o7777`,
invokes `openat2` and applies `check_retval` (`-1` means `Err(errno)`).
Returns the Rust result together with the `open_how` record passed to the
kernel. -/
def do_open_relative_to (w : OWorld) (dirfd : Int) (pathname : List Nat)
    (flags : Int) (mode : Option Nat) : Except Nat Int × OpenHow :=
  let mode2 : Nat := (mode.getD 0) &&& 0o7777
  let how : OpenHow :=
    { resolve := RESOLVE_IN_ROOT ||| RESOLVE_NO_MAGICLINKS
      flags := u64_of_i32 flags
      mode := mode2 }
  let ret := w.openat2 dirfd pathname how
  (if ret = -1 then Except.error w.errno else Except.ok ret, how)

/-- A concrete `OWorld` whose `openat2` always succeeds with fd 3. -/
def ow0 : OWorld := { openat2 := fun _ _ _ => 3, errno := 0 }

/-- Result of a Rust function that may return `Ok`, return `Err` with an OS
error code, or panic (e.g. `CString::new(..).unwrap()` on an interior NUL). -/
inductive RustResult (α : Type) where
  | ok (a : α)
  | err (e : Nat)
  | panicked
deriving DecidableEq

/-- Embedding of `CString::new`: fails exactly when the byte string contains
an interior NUL; otherwise appends the terminating NUL. -/
def cstring_new (s : List Nat) : Option (List Nat) :=
  if 0 ∈ s then none else some (s ++ [0])

/-- World for the `mount`/`umount2` wrappers: raw syscall return values and
the `errno` from `Error::last_os_error()`. -/
structure MWorld where
  mountRet : List Nat → List Nat → List Nat → Nat → Int
  mountErrno : Nat
  umountRet : List Nat → Int → Int
  umountErrno : Nat

/-- Embedding of `oslib::mount` (src/oslib.rs:67-80): each of the three
strings goes through `CString::new(..).unwrap()` (panicking on an interior
NUL, with `None` arguments defaulting to the empty string), then
`libc::mount` runs and `check_retval` maps `-1` to `Err(errno)`. -/
def mount (w : MWorld) (source : Option (List Nat)) (target : List Nat)
    (fstype : Option (List Nat)) (flags : Nat) : RustResult Unit :=
  match cstring_new (source.getD []) with
  | none => RustResult.panicked
  | some src =>
    match cstring_new target with
    | none => RustResult.panicked
    | some tgt =>
      match cstring_new (fstype.getD []) with
      | none => RustResult.panicked
      | some fs =>
        if w.mountRet src tgt fs flags = -1 then RustResult.err w.mountErrno
        else RustResult.ok ()

/-- Embedding of `oslib::umount2` (src/oslib.rs:93-100): `target` goes
through `CString::new(..).unwrap()` (panicking on an interior NUL), then
`libc::umount2` runs and `check_retval` maps `-1` to `Err(errno)`. -/
def umount2 (w : MWorld) (target : List Nat) (flags : Int) : RustResult Unit :=
  match cstring_new target with
  | none => RustResult.panicked
  | some tgt =>
    if w.umountRet tgt flags = -1 then RustResult.err w.umountErrno
    else RustResult.ok ()

/-- A concrete `MWorld` whose syscalls always succeed. -/
def mw0 : MWorld :=
  { mountRet := fun _ _ _ _ => 0, mountErrno := 0
    umountRet := fun _ _ => 0, umountErrno := 0 }

example : (do_open_relative_to ow0 5 [] 0 none).2.flags = 0 := by decide
example : (do_open_relative_to ow0 5 [] 0 (some 0o177777)).2.mode = 0o7777 := by
  decide
example : umount2 mw0 [0, 97] 0 = RustResult.panicked := by decide
example : mount mw0 none [97] none 0 = RustResult.ok () := by decide

/-! ## src/passthrough/file_handle.rs -/

/-- The opaque kernel-produced handle blob (`oslib::CFileHandle`). -/
structure CFileHandle where
  bytes : List Nat
deriving DecidableEq

/-- `FileHandle` (src/passthrough/file_handle.rs:17-20): a mount id
(`MountId` is `u64`) paired with the opaque handle. -/
structure FileHandle where
  mnt_id : Nat
  handle : CFileHandle
deriving DecidableEq

/-- World for `name_to_handle_at`: given `(dirfd, path bytes, flags)` the
kernel either fails — the error's `raw_os_error()` being `some errno` for an
OS error — or succeeds, filling in the handle and the `mount_id` out
parameter (a C `int`). -/
structure HWorld where
  nameToHandleAt : Int → List Nat → Nat → Except (Option Nat) (CFileHandle × Int)

/-- Embedding of `FileHandle::from_name_at`
(src/passthrough/file_handle.rs:42-63): calls
`oslib::name_to_handle_at(dir, path, &mut c_fh, &mut mount_id,
libc::AT_EMPTY_PATH)`; on failure, matches `err.raw_os_error()` mapping
`Some(EOPNOTSUPP)` and `Some(EOVERFLOW)` to `Ok(None)` and anything else to
`Err(err)`; on success returns the handle with `mount_id as MountId`. -/
def FileHandle.from_name_at (w : HWorld) (dirfd : Int) (path : List Nat) :
    Except (Option Nat) (Option FileHandle) :=
  match w.nameToHandleAt dirfd path AT_EMPTY_PATH with
  | Except.error err =>
    if err = some EOPNOTSUPP then Except.ok none
    else if err = some EOVERFLOW then Except.ok none
    else Except.error err
  | Except.ok (c_fh, mount_id) =>
    Except.ok (some { mnt_id := u64_of_i32 mount_id, handle := c_fh })

/-- Embedding of `FileHandle::from_fd`
(src/passthrough/file_handle.rs:67-71): `from_name_at` on the empty C
string `EMPTY_CSTR = b"\x00"` (content `[]`). -/
def FileHandle.from_fd (w : HWorld) (fd : Int) :
    Except (Option Nat) (Option FileHandle) :=
  FileHandle.from_name_at w fd []

/-- A concrete `HWorld` that always reports `EOPNOTSUPP`. -/
def hw0 : HWorld := { nameToHandleAt := fun _ _ _ => Except.error (some 95) }

/-- A concrete `HWorld` that always reports `EACCES` (13). -/
def hw1 : HWorld := { nameToHandleAt := fun _ _ _ => Except.error (some 13) }

example : FileHandle.from_name_at hw0 3 [] = Except.ok none := rfl
example : FileHandle.from_name_at hw1 3 [] = Except.error (some 13) := rfl

/-! ## src/passthrough/credentials.rs -/

/-- A credential-related syscall event: `syscall(SYS_setresgid, -1, v, -1)`,
`syscall(SYS_setresuid, -1, v, -1)`, or the `util::add_cap_to_eff(name)`
call made by `set_creds`. -/
inductive CredEvent where
  | setresgid (v : Nat)
  | setresuid (v : Nat)
  | addCapToEff (name : String)
deriving DecidableEq

/-- World for the credential syscalls: the raw return value of each syscall
and the `errno` reported on failure. -/
structure CWorld where
  ret : CredEvent → Int
  errno : CredEvent → Nat

/-- The `ScopedUid` guard (unit value; src/passthrough/credentials.rs:53). -/
inductive ScopedUid where
  | mk
deriving DecidableEq

/-- The `ScopedGid` guard (unit value; src/passthrough/credentials.rs:54). -/
inductive ScopedGid where
  | mk
deriving DecidableEq

/-- Embedding of `ScopedGid::new` (the `scoped_cred!` macro body,
src/passthrough/credentials.rs:11-37, instantiated with `SYS_setresgid`):
identity 0 returns `Ok(None)` with no syscall; otherwise the syscall runs,
`res == 0` yields `Ok(Some(_))` and anything else `Err(last_os_error)`.
Returns the Rust result together with the list of syscalls performed. -/
def ScopedGid.new (w : CWorld) (gid : Nat) :
    Except Nat (Option ScopedGid) × List CredEvent :=
  if gid = 0 then (Except.ok none, [])
  else if w.ret (CredEvent.setresgid gid) = 0 then
    (Except.ok (some ScopedGid.mk), [CredEvent.setresgid gid])
  else
    (Except.error (w.errno (CredEvent.setresgid gid)), [CredEvent.setresgid gid])

/-- Embedding of `ScopedUid::new` (same macro body instantiated with
`SYS_setresuid`). -/
def ScopedUid.new (w : CWorld) (uid : Nat) :
    Except Nat (Option ScopedUid) × List CredEvent :=
  if uid = 0 then (Except.ok none, [])
  else if w.ret (CredEvent.setresuid uid) = 0 then
    (Except.ok (some ScopedUid.mk), [CredEvent.setresuid uid])
  else
    (Except.error (w.errno (CredEvent.setresuid uid)), [CredEvent.setresuid uid])

/-- Outcome of a Rust destructor: whether it panicked, and whether it logged
an error message. -/
structure DropReport where
  panicked : Bool
  loggedError : Bool
deriving DecidableEq

/-- Embedding of the `scoped_cred!` `Drop` impl
(src/passthrough/credentials.rs:40-50): runs `syscall(nr, -1, 0, -1)`; a
negative result is logged via `error!` and nothing more — the destructor
never panics. -/
def scoped_cred_drop (w : CWorld) (restoreEvent : CredEvent) :
    DropReport × List CredEvent :=
  ({ panicked := false, loggedError := decide (w.ret restoreEvent < 0) },
   [restoreEvent])

/-- `ScopedGid`'s destructor: restore gid 0. -/
def ScopedGid.drop (w : CWorld) : DropReport × List CredEvent :=
  scoped_cred_drop w (CredEvent.setresgid 0)

/-- `ScopedUid`'s destructor: restore uid 0. -/
def ScopedUid.drop (w : CWorld) : DropReport × List CredEvent :=
  scoped_cred_drop w (CredEvent.setresuid 0)

/-- Embedding of `set_creds` (src/passthrough/credentials.rs:56-78):
`ScopedGid::new(gid).and_then(|gid| Ok((ScopedUid::new(uid)?, gid)))` — the
gid switch runs first; if it fails the uid switch is never attempted; if the
uid switch fails, the closure's `?` drops the just-created gid guard (when
one exists), emitting its restoring syscall.  Afterwards, on every path,
`crate::util::add_cap_to_eff("DAC_OVERRIDE")` is invoked (its failure only
logged, the result unaffected), and `creds_guard` is returned.  Returns the
Rust result together with the full syscall trace. -/
def set_creds (w : CWorld) (uid gid : Nat) :
    Except Nat (Option ScopedUid × Option ScopedGid) × List CredEvent :=
  let g := ScopedGid.new w gid
  let core :=
    match g.1 with
    | Except.error e => (Except.error e, g.2)
    | Except.ok gOpt =>
      let u := ScopedUid.new w uid
      match u.1 with
      | Except.error e =>
        let dtr := match gOpt with
          | none => []
          | some _ => (ScopedGid.drop w).2
        (Except.error e, g.2 ++ u.2 ++ dtr)
      | Except.ok uOpt => (Except.ok (uOpt, gOpt), g.2 ++ u.2)
  (core.1, core.2 ++ [CredEvent.addCapToEff "DAC_OVERRIDE"])

/-- A concrete `CWorld` where only `setresgid 7` fails (with errno 1). -/
def cw0 : CWorld :=
  { ret := fun e => if e = CredEvent.setresgid 7 then -1 else 0
    errno := fun _ => 1 }

/-- A concrete `CWorld` where every syscall succeeds. -/
def cw1 : CWorld := { ret := fun _ => 0, errno := fun _ => 0 }

example : (set_creds cw0 5 7).2 =
    [CredEvent.setresgid 7, CredEvent.addCapToEff "DAC_OVERRIDE"] := by decide
example : (set_creds cw1 5 7).2 =
    [CredEvent.setresgid 7, CredEvent.setresuid 5,
     CredEvent.addCapToEff "DAC_OVERRIDE"] := by decide

/-- A `ScopedCaps` guard holds the numeric capability it dropped
(src/passthrough/credentials.rs:80-82). -/
structure ScopedCaps where
  cap : Nat
deriving DecidableEq

/-- World for the capng operations used by `ScopedCaps::drop`: whether
`capng::update` and `capng::apply(Set::CAPS)` succeed. -/
structure CapWorld where
  updateOk : Bool
  applyOk : Bool

/-- Outcome of `ScopedCaps::drop`. -/
inductive CapDropOutcome where
  | normal
  | panicked
deriving DecidableEq

/-- Embedding of `ScopedCaps`'s `Drop` impl
(src/passthrough/credentials.rs:121-141): re-adds the capability to the
effective set; if `capng::update` fails it panics, and if `capng::apply`
fails it panics; otherwise it returns normally. -/
def ScopedCaps.drop (w : CapWorld) (_self : ScopedCaps) : CapDropOutcome :=
  if w.updateOk = false then CapDropOutcome.panicked
  else if w.applyOk = false then CapDropOutcome.panicked
  else CapDropOutcome.normal

/-! ## src/util.rs -/

/-- One iteration of the `write_pid_file` loop, as decided by the OS:
the outcome of `OpenOptions::open` (the file is opened with mode
`S_IRUSR|S_IWUSR`, `O_CLOEXEC`, write, create), the `flock` return value as
a function of the flags passed, its errno, the inode from
`file.metadata()?.ino()` of the locked file, and `fs::metadata(path)`'s
inode (`none` when the path stat fails for any reason). -/
structure PidIter where
  openErr : Option Nat
  flockRet : Nat → Int
  flockErrno : Nat
  lockedIno : Except Nat Nat
  pathIno : Option Nat

/-- Embedding of `try_lock_file` (src/util.rs:13-21): calls
`flock(fd, LOCK_EX | LOCK_NB)` and maps `-1` to `Err(last_os_error)`. -/
def try_lock_file (flockRet : Nat → Int) (errno : Nat) : Except Nat Unit :=
  if flockRet (LOCK_EX ||| LOCK_NB) = -1 then Except.error errno
  else Except.ok ()

/-- Result of `write_pid_file`: success carries the inode of the file that
was locked and broken out of the loop with, plus the content written;
`diverged` marks executions longer than the supplied iteration list. -/
inductive PidFileResult where
  | ok (ino : Nat) (content : String)
  | err (e : Nat)
  | diverged
deriving DecidableEq

/-- Embedding of `write_pid_file` (src/util.rs:23-51).  Each loop iteration:
open-or-create (`?` on failure), `try_lock_file` (`?` on failure), read the
locked file's inode (`?` on failure), stat the path (any failure means
`continue`), compare inodes — equal breaks out of the loop, different means
`continue`.  After the loop, `format!(pid newline)` is written
(`?` on failure) and the locked file is returned. -/
def write_pid_file (pid : Nat) (writeRes : Except Nat Unit) :
    List PidIter → PidFileResult
  | [] => PidFileResult.diverged
  | it :: rest =>
    match it.openErr with
    | some e => PidFileResult.err e
    | none =>
      match try_lock_file it.flockRet it.flockErrno with
      | Except.error e => PidFileResult.err e
      | Except.ok _ =>
        match it.lockedIno with
        | Except.error e => PidFileResult.err e
        | Except.ok locked =>
          match it.pathIno with
          | none => write_pid_file pid writeRes rest
          | some current =>
            if locked = current then
              match writeRes with
              | Except.error e => PidFileResult.err e
              | Except.ok _ => PidFileResult.ok locked (Nat.repr pid ++ "\n")
            else write_pid_file pid writeRes rest

/-- An iteration where everything succeeds and the inodes agree (7). -/
def itGood : PidIter :=
  { openErr := none, flockRet := fun _ => 0, flockErrno := 0
    lockedIno := Except.ok 7, pathIno := some 7 }

/-- An iteration where the path was replaced concurrently: the locked file
has inode 7 but the path now resolves to inode 9. -/
def itRaced : PidIter :=
  { openErr := none, flockRet := fun _ => 0, flockErrno := 0
    lockedIno := Except.ok 7, pathIno := some 9 }

example : write_pid_file 42 (Except.ok ()) [itGood] =
    PidFileResult.ok 7 "42\n" := by decide
example : write_pid_file 42 (Except.ok ()) [itRaced, itGood] =
    PidFileResult.ok 7 "42\n" := by decide

/-- World for `wait_for_child`: the `waitpid` return value, the wait status
it reported, and whether `capng::apply(Set::BOTH)` succeeded (its failure is
only logged and does not change the exit code). -/
structure WaitWorld where
  waitpidRet : Int
  status : Nat
  capApplyOk : Bool

/-- libc's `WIFEXITED(status)`: `(status & 0x7f) == 0`. -/
def WIFEXITED (s : Nat) : Bool := s &&& 0x7f == 0

/-- libc's `WEXITSTATUS(status)`: `(status >> 8) & 0xff`. -/
def WEXITSTATUS (s : Nat) : Nat := (s >>> 8) &&& 0xff

/-- libc's `WIFSIGNALED(status)`: `((status & 0x7f) + 1) as i8 >= 2`. -/
def WIFSIGNALED (s : Nat) : Bool := decide (2 ≤ i8_cast ((s &&& 0x7f) + 1))

/-- libc's `WTERMSIG(status)`: `status & 0x7f`. -/
def WTERMSIG (s : Nat) : Nat := s &&& 0x7f

/-- Embedding of `wait_for_child` (src/util.rs:110-138), returning the code
passed to `process::exit`: after dropping capabilities (failure only
logged), a `waitpid` return different from `pid` exits with 1; a normally
exited child's exit status is passed through; a signalled child yields the
negated signal number; any other status yields `EXIT_FAILURE`. -/
def wait_for_child (w : WaitWorld) (pid : Int) : Int :=
  if w.waitpidRet ≠ pid then 1
  else if WIFEXITED w.status then (WEXITSTATUS w.status : Int)
  else if WIFSIGNALED w.status then -(WTERMSIG w.status : Int)
  else EXIT_FAILURE

/-- A concrete `WaitWorld`: child killed by signal 9. -/
def ww9 : WaitWorld := { waitpidRet := 5, status := 9, capApplyOk := true }

example : wait_for_child ww9 5 = -9 := by decide
example : wait_for_child ⟨5, 0x2300, true⟩ 5 = 0x23 := by decide
example : wait_for_child ⟨5, 0x7f, true⟩ 5 = 1 := by decide

/-! ## Claims -/

/-- Claim C1, counterexample: at the concrete call
`do_open_relative_to ow0 5 [] 0 none` the open flags passed to the kernel do
NOT include `O_NOFOLLOW` and `O_CLOEXEC` beyond the caller's flags — the
`open_how.flags` field is exactly the caller's `0`. -/
theorem do_open_relative_to_flags_counterexample :
    ¬ ((do_open_relative_to ow0 5 [] 0 none).2.flags &&&
        (O_NOFOLLOW ||| O_CLOEXEC) = O_NOFOLLOW ||| O_CLOEXEC) := by decide

/-- Claim C1 (amended): every call to `do_open_relative_to` passes the
resolution flags `RESOLVE_IN_ROOT | RESOLVE_NO_MAGICLINKS` to `openat2`, and
the open flags passed to the kernel are exactly the caller-supplied flags
(cast to `u64`); `O_NOFOLLOW` and `O_CLOEXEC` are not added by this function
but are expected to be supplied by its caller. -/
theorem do_open_relative_to_resolution_flags :
    ∀ (w : OWorld) (dirfd : Int) (p : List Nat) (flags : Int)
      (mode : Option Nat),
      (do_open_relative_to w dirfd p flags mode).2.resolve =
          (RESOLVE_IN_ROOT ||| RESOLVE_NO_MAGICLINKS)
        ∧ (do_open_relative_to w dirfd p flags mode).2.flags =
          u64_of_i32 flags :=
  fun _ _ _ _ _ => ⟨rfl, rfl⟩

/-- Claim C7: the mode passed to `openat2` by `do_open_relative_to` is the
supplied mode bitwise-ANDed with `0o7777` (so only permission bits survive),
and an absent mode is treated as 0. -/
theorem do_open_relative_to_mode_masked :
    ∀ (w : OWorld) (dirfd : Int) (p : List Nat) (flags : Int) (m : Nat),
      (do_open_relative_to w dirfd p flags (some m)).2.mode = m &&& 0o7777
      ∧ (do_open_relative_to w dirfd p flags none).2.mode = 0
      ∧ (do_open_relative_to w dirfd p flags (some m)).2.mode ≤ 0o7777 :=
  fun _ _ _ _ _ => ⟨rfl, rfl, Nat.and_le_right⟩

/-- Claim C4: creating a scoped uid or gid guard for identity 0 performs no
credential-changing syscall (empty trace) and returns `Ok(None)`; in
particular `set_creds(0, 0)` returns `Ok((None, None))`. -/
theorem zero_identity_guard_is_noop :
    ∀ (w : CWorld),
      ScopedUid.new w 0 = (Except.ok none, [])
      ∧ ScopedGid.new w 0 = (Except.ok none, [])
      ∧ (set_creds w 0 0).1 = Except.ok (none, none) :=
  fun _ => ⟨rfl, rfl, rfl⟩

/-- Claim C5: on guard release, a failure of `capng::update` or
`capng::apply` makes the `ScopedCaps` destructor panic, whereas the
`ScopedUid`/`ScopedGid` destructors never panic — a failed uid/gid restore
is only logged. -/
theorem cap_restore_fatal_cred_restore_logged :
    ∀ (cw : CapWorld) (c : ScopedCaps) (w : CWorld),
      ((cw.updateOk = false ∨ cw.applyOk = false) →
        ScopedCaps.drop cw c = CapDropOutcome.panicked)
      ∧ (ScopedUid.drop w).1.panicked = false
      ∧ (ScopedGid.drop w).1.panicked = false
      ∧ (w.ret (CredEvent.setresuid 0) < 0 →
          (ScopedUid.drop w).1.loggedError = true)
      ∧ (w.ret (CredEvent.setresgid 0) < 0 →
          (ScopedGid.drop w).1.loggedError = true) := by
  intro cw c w
  refine ⟨?_, rfl, rfl, ?_, ?_⟩
  · rintro (h | h) <;> simp [ScopedCaps.drop, h]
  · intro h; simp [ScopedUid.drop, scoped_cred_drop, h]
  · intro h; simp [ScopedGid.drop, scoped_cred_drop, h]

/-- Claim C5, witness: a failing `capng::update` makes the `ScopedCaps`
destructor panic, while a `ScopedUid` destructor with a failing restore
syscall does not panic but logs. -/
theorem cap_restore_fatal_witness :
    ScopedCaps.drop { updateOk := false, applyOk := true } { cap := 3 } =
      CapDropOutcome.panicked
    ∧ (ScopedUid.drop cw0).1.panicked = false :=
  ⟨(cap_restore_fatal_cred_restore_logged ⟨false, true⟩ ⟨3⟩ cw0).1 (Or.inl rfl),
   (cap_restore_fatal_cred_restore_logged ⟨false, true⟩ ⟨3⟩ cw0).2.1⟩

/-- Claim C6, counterexample: `umount2` on a target containing an embedded
NUL byte panics — it does not return a structured failure. -/
theorem umount2_nul_counterexample :
    umount2 mw0 [0, 97] 0 = RustResult.panicked
    ∧ ∀ e : Nat, umount2 mw0 [0, 97] 0 ≠ RustResult.err e := by
  refine ⟨by decide, ?_⟩
  intro e h
  simp [umount2, cstring_new] at h

/-- Claim C6 (amended): for the wrapped syscall operations taking string
arguments (`mount`, `umount2`), a string containing an embedded NUL byte
makes the operation panic (per the functions' own documented contract),
rather than return a structured failure. -/
theorem nul_string_means_panic :
    ∀ (w : MWorld) (source : Option (List Nat)) (target : List Nat)
      (fstype : Option (List Nat)) (flags : Nat) (target2 : List Nat)
      (flags2 : Int),
      ((0 ∈ source.getD [] ∨ 0 ∈ target ∨ 0 ∈ fstype.getD []) →
        mount w source target fstype flags = RustResult.panicked)
      ∧ (0 ∈ target2 → umount2 w target2 flags2 = RustResult.panicked) := by
  intro w source target fstype flags target2 flags2
  constructor
  · intro h
    by_cases hs : 0 ∈ source.getD [] <;>
      by_cases ht : 0 ∈ target <;>
      by_cases hf : 0 ∈ fstype.getD [] <;>
      simp_all [mount, cstring_new]
  · intro h
    simp [umount2, cstring_new, h]

/-- Claim C6, witness: `mount` on a target equal to the single NUL byte
panics. -/
theorem nul_string_means_panic_witness :
    mount mw0 none [0] none 0 = RustResult.panicked :=
  (nul_string_means_panic mw0 none [0] none 0 [0] 0).1
    (Or.inr (Or.inl (by decide)))

/-- Claim C2: `FileHandle::from_name_at` returns `Ok(None)` exactly when the
underlying `name_to_handle_at` call fails with `EOPNOTSUPP` or `EOVERFLOW`;
any other error is propagated unchanged as `Err`; on syscall success it
returns `Ok(Some(handle))` carrying the reported mount id. -/
theorem from_name_at_permanent_refusal :
    ∀ (w : HWorld) (dirfd : Int) (path : List Nat),
      (FileHandle.from_name_at w dirfd path = Except.ok none ↔
        (w.nameToHandleAt dirfd path AT_EMPTY_PATH =
            Except.error (some EOPNOTSUPP)
         ∨ w.nameToHandleAt dirfd path AT_EMPTY_PATH =
            Except.error (some EOVERFLOW)))
      ∧ (∀ err, w.nameToHandleAt dirfd path AT_EMPTY_PATH = Except.error err →
          err ≠ some EOPNOTSUPP → err ≠ some EOVERFLOW →
          FileHandle.from_name_at w dirfd path = Except.error err)
      ∧ (∀ fh mid,
          w.nameToHandleAt dirfd path AT_EMPTY_PATH = Except.ok (fh, mid) →
          FileHandle.from_name_at w dirfd path =
            Except.ok (some { mnt_id := u64_of_i32 mid, handle := fh })) := by
  intro w dirfd path
  rcases hr : w.nameToHandleAt dirfd path AT_EMPTY_PATH with err | ⟨fh, mid⟩
  · refine ⟨⟨?_, ?_⟩, ?_, ?_⟩
    · intro h
      simp only [FileHandle.from_name_at, hr] at h
      by_cases h1 : err = some EOPNOTSUPP
      · exact Or.inl (by rw [h1])
      · by_cases h2 : err = some EOVERFLOW
        · exact Or.inr (by rw [h2])
        · simp [h1, h2] at h
    · rintro (h | h) <;>
        (injection h with h; simp [FileHandle.from_name_at, hr, h])
    · intro e he h1 h2
      injection he with he
      subst he
      simp [FileHandle.from_name_at, hr, h1, h2]
    · intro fh mid h
      exact absurd h (by simp)
  · refine ⟨⟨?_, ?_⟩, ?_, ?_⟩
    · intro h
      simp [FileHandle.from_name_at, hr] at h
    · rintro (h | h) <;> exact absurd h (by simp)
    · intro e he _ _
      exact absurd he (by simp)
    · intro fh2 mid2 h
      injection h with h
      obtain ⟨h1, h2⟩ := Prod.mk.injEq .. |>.mp h
      subst h1
      subst h2
      simp [FileHandle.from_name_at, hr]

/-- Claim C2, witness: an `EACCES` (13) failure of `name_to_handle_at` is
propagated unchanged by `from_name_at`. -/
theorem from_name_at_permanent_refusal_witness :
    FileHandle.from_name_at hw1 3 [] = Except.error (some 13) :=
  (from_name_at_permanent_refusal hw1 3 []).2.1 (some 13) rfl (by decide)
    (by decide)

/-- Claim C10: `FileHandle::from_fd fd` returns exactly the same result as
`FileHandle::from_name_at fd ""`, and `from_name_at` (hence `from_fd`)
consults the underlying syscall only at the `AT_EMPTY_PATH` flag, so the two
share identical permanent-refusal and error-propagation behaviour. -/
theorem from_fd_eq_from_name_at :
    ∀ (w : HWorld) (fd : Int),
      FileHandle.from_fd w fd = FileHandle.from_name_at w fd []
      ∧ ∀ w2 : HWorld,
          w2.nameToHandleAt fd [] AT_EMPTY_PATH =
            w.nameToHandleAt fd [] AT_EMPTY_PATH →
          FileHandle.from_fd w2 fd = FileHandle.from_fd w fd := by
  intro w fd
  refine ⟨rfl, ?_⟩
  intro w2 h
  unfold FileHandle.from_fd FileHandle.from_name_at
  rw [h]

/-- A `HWorld` that behaves like `hw0` on the empty path but differs on any
other path or flag. -/
def hw2 : HWorld :=
  { nameToHandleAt := fun _ p f =>
      if p = [] ∧ f = AT_EMPTY_PATH then Except.error (some 95)
      else Except.error (some 13) }

/-- Claim C10, witness: two worlds agreeing at `("", AT_EMPTY_PATH)` give
`from_fd` the same result. -/
theorem from_fd_eq_from_name_at_witness :
    FileHandle.from_fd hw2 4 = FileHandle.from_fd hw0 4 :=
  (from_fd_eq_from_name_at hw0 4).2 hw2 rfl

/-- If a wait status satisfies `WIFSIGNALED` it does not satisfy
`WIFEXITED`: a signalled status has a non-zero low 7 bits. -/
theorem wifsignaled_not_exited :
    ∀ s : Nat, WIFSIGNALED s = true → WIFEXITED s = false := by
  intro s h
  by_contra hx
  rw [Bool.not_eq_false] at hx
  have h0 : s &&& 0x7f = 0 := by simpa [WIFEXITED] using hx
  rw [WIFSIGNALED, h0] at h
  exact absurd h (by decide)

/-- Claim C9: with `waitpid` succeeding, `wait_for_child` translates the
wait status into the process exit code: a normal exit passes the exit status
through, a termination by signal gives the negated signal number, and any
other status gives `EXIT_FAILURE`. -/
theorem wait_for_child_translation :
    ∀ (w : WaitWorld) (pid : Int), w.waitpidRet = pid →
      (WIFEXITED w.status = true →
        wait_for_child w pid = (WEXITSTATUS w.status : Int))
      ∧ (WIFSIGNALED w.status = true →
        wait_for_child w pid = -(WTERMSIG w.status : Int))
      ∧ (WIFEXITED w.status = false → WIFSIGNALED w.status = false →
        wait_for_child w pid = EXIT_FAILURE) := by
  intro w pid h
  refine ⟨?_, ?_, ?_⟩
  · intro he
    simp [wait_for_child, h, he]
  · intro hs
    have he := wifsignaled_not_exited w.status hs
    simp [wait_for_child, h, he, hs]
  · intro he hs
    simp [wait_for_child, h, he, hs]

/-- Claim C9, witness: a child killed by signal 9 yields exit code `-9`. -/
theorem wait_for_child_translation_witness : wait_for_child ww9 5 = -9 :=
  (wait_for_child_translation ww9 5 rfl).2.1 (by decide)

/-- Claim C3: in every execution of `set_creds`, any identity-switching
`setresgid` syscall (target value non-zero) is performed strictly before any
`setresuid` syscall, and if the gid switch fails the uid switch is never
attempted. -/
theorem set_creds_gid_before_uid :
    ∀ (w : CWorld) (uid gid : Nat),
      (∀ (i u : Nat),
        ((set_creds w uid gid).2)[i]? = some (CredEvent.setresuid u) →
        ∀ (j g : Nat),
          ((set_creds w uid gid).2)[j]? = some (CredEvent.setresgid g) →
          g ≠ 0 → j < i)
      ∧ (gid ≠ 0 → w.ret (CredEvent.setresgid gid) ≠ 0 →
          ∀ u, CredEvent.setresuid u ∉ (set_creds w uid gid).2) := by
  intro w uid gid
  by_cases hg : gid = 0
  · by_cases hu : uid = 0
    · have ht : (set_creds w uid gid).2 =
          [CredEvent.addCapToEff "DAC_OVERRIDE"] := by
        simp [set_creds, ScopedGid.new, ScopedUid.new, hg, hu]
      refine ⟨?_, fun hgn => absurd hg hgn⟩
      intro i u hi
      rw [ht] at hi
      exfalso
      rcases i with _ | i <;> simp_all
    · by_cases hur : w.ret (CredEvent.setresuid uid) = 0
      · have ht : (set_creds w uid gid).2 =
            [CredEvent.setresuid uid, CredEvent.addCapToEff "DAC_OVERRIDE"] := by
          simp [set_creds, ScopedGid.new, ScopedUid.new, hg, hu, hur]
        refine ⟨?_, fun hgn => absurd hg hgn⟩
        intro i u hi j g hj hgz
        rw [ht] at hj
        exfalso
        rcases j with _ | _ | j <;> simp_all
      · have ht : (set_creds w uid gid).2 =
            [CredEvent.setresuid uid, CredEvent.addCapToEff "DAC_OVERRIDE"] := by
          simp [set_creds, ScopedGid.new, ScopedUid.new, hg, hu, hur]
        refine ⟨?_, fun hgn => absurd hg hgn⟩
        intro i u hi j g hj hgz
        rw [ht] at hj
        exfalso
        rcases j with _ | _ | j <;> simp_all
  · by_cases hgr : w.ret (CredEvent.setresgid gid) = 0
    · by_cases hu : uid = 0
      · have ht : (set_creds w uid gid).2 =
            [CredEvent.setresgid gid, CredEvent.addCapToEff "DAC_OVERRIDE"] := by
          simp [set_creds, ScopedGid.new, ScopedUid.new, hg, hgr, hu]
        refine ⟨?_, fun _ hrn => absurd hgr hrn⟩
        intro i u hi
        rw [ht] at hi
        exfalso
        rcases i with _ | _ | i <;> simp_all
      · by_cases hur : w.ret (CredEvent.setresuid uid) = 0
        · have ht : (set_creds w uid gid).2 =
              [CredEvent.setresgid gid, CredEvent.setresuid uid,
               CredEvent.addCapToEff "DAC_OVERRIDE"] := by
            simp [set_creds, ScopedGid.new, ScopedUid.new, hg, hgr, hu, hur]
          refine ⟨?_, fun _ hrn => absurd hgr hrn⟩
          intro i u hi j g hj hgz
          rw [ht] at hi
          rw [ht] at hj
          rcases i with _ | _ | _ | i <;> rcases j with _ | _ | _ | j <;>
            simp_all
        · have ht : (set_creds w uid gid).2 =
              [CredEvent.setresgid gid, CredEvent.setresuid uid,
               CredEvent.setresgid 0,
               CredEvent.addCapToEff "DAC_OVERRIDE"] := by
            simp [set_creds, ScopedGid.new, ScopedUid.new, ScopedGid.drop,
              scoped_cred_drop, hg, hgr, hu, hur]
          refine ⟨?_, fun _ hrn => absurd hgr hrn⟩
          intro i u hi j g hj hgz
          rw [ht] at hi
          rw [ht] at hj
          rcases i with _ | _ | _ | _ | i <;> rcases j with _ | _ | _ | _ | j <;>
            simp_all
    · have ht : (set_creds w uid gid).2 =
          [CredEvent.setresgid gid, CredEvent.addCapToEff "DAC_OVERRIDE"] := by
        simp [set_creds, ScopedGid.new, ScopedUid.new, hg, hgr]
      constructor
      · intro i u hi
        rw [ht] at hi
        exfalso
        rcases i with _ | _ | i <;> simp_all
      · intro _ _ u
        rw [ht]
        simp

/-- Claim C3, witness: with a world where `setresgid 7` fails, `set_creds`
for `(uid, gid) = (5, 7)` never performs a `setresuid` syscall. -/
theorem set_creds_gid_before_uid_witness :
    CredEvent.setresuid 5 ∉ (set_creds cw0 5 7).2 :=
  (set_creds_gid_before_uid cw0 5 7).2 (by decide) (by decide) 5

/-- Claim C8: `write_pid_file` returns successfully only after an iteration
in which the open succeeded, the exclusive non-blocking `flock` succeeded,
and the locked file's inode equals the inode currently reachable at the
path; on success the content written is the process id as decimal text
followed by a newline.  When the inode comparison shows the path was
replaced (different inode) or removed (path stat fails), the iteration
retries from the top instead of failing. -/
theorem write_pid_file_locks_and_checks_inode :
    ∀ (pid : Nat) (wr : Except Nat Unit),
      (∀ (iters : List PidIter) (ino : Nat) (c : String),
        write_pid_file pid wr iters = PidFileResult.ok ino c →
        c = Nat.repr pid ++ "\n" ∧ wr = Except.ok () ∧
        ∃ it ∈ iters, it.openErr = none ∧
          try_lock_file it.flockRet it.flockErrno = Except.ok () ∧
          it.lockedIno = Except.ok ino ∧ it.pathIno = some ino)
      ∧ (∀ (it : PidIter) (rest : List PidIter), it.openErr = none →
          try_lock_file it.flockRet it.flockErrno = Except.ok () →
          ∀ locked : Nat, it.lockedIno = Except.ok locked →
          (it.pathIno = none ∨ ∃ cur, it.pathIno = some cur ∧ cur ≠ locked) →
          write_pid_file pid wr (it :: rest) = write_pid_file pid wr rest) := by
  intro pid wr
  constructor
  · intro iters
    induction iters with
    | nil =>
      intro ino c h
      simp [write_pid_file] at h
    | cons it rest ih =>
      intro ino c h
      rw [write_pid_file] at h
      rcases ho : it.openErr with _ | e
      · simp only [ho] at h
        rcases hl : try_lock_file it.flockRet it.flockErrno with e | u
        · simp only [hl] at h
          exact absurd h (by simp)
        · simp only [hl] at h
          rcases hino : it.lockedIno with e | locked
          · simp only [hino] at h
            exact absurd h (by simp)
          · simp only [hino] at h
            rcases hp : it.pathIno with _ | cur
            · simp only [hp] at h
              obtain ⟨hc, hwr, it2, hmem, hrest⟩ := ih ino c h
              exact ⟨hc, hwr, it2, List.mem_cons_of_mem it hmem, hrest⟩
            · simp only [hp] at h
              by_cases heq : locked = cur
              · rw [if_pos heq] at h
                rcases hw : wr with e | v
                · simp only [hw] at h
                  exact absurd h (by simp)
                · simp only [hw] at h
                  injection h with h1 h2
                  subst h1
                  refine ⟨h2.symm, rfl, it, List.mem_cons_self it rest,
                    ho, hl, hino, ?_⟩
                  rw [hp, heq]
              · rw [if_neg heq] at h
                obtain ⟨hc, hwr, it2, hmem, hrest⟩ := ih ino c h
                exact ⟨hc, hwr, it2, List.mem_cons_of_mem it hmem, hrest⟩
      · simp only [ho] at h
        exact absurd h (by simp)
  · intro it rest ho hl locked hino hmis
    rw [write_pid_file]
    simp only [ho, hl, hino]
    rcases hmis with hp | ⟨cur, hp, hne⟩
    · simp only [hp]
    · simp only [hp]
      rw [if_neg (fun hll => hne hll.symm)]

/-- Claim C8, witness: an iteration whose path inode (9) differs from the
locked file's inode (7) makes `write_pid_file` retry with the remaining
iterations. -/
theorem write_pid_file_locks_and_checks_inode_witness :
    write_pid_file 42 (Except.ok ()) [itRaced, itGood] =
      write_pid_file 42 (Except.ok ()) [itGood] :=
  (write_pid_file_locks_and_checks_inode 42 (Except.ok ())).2 itRaced [itGood]
    rfl rfl 7 rfl (Or.inr ⟨9, rfl, by decide⟩)
